import Mathlib

/-!
Shallow embedding of the csv-domain-checker repository: the helper functions
and the asynchronous engine of `src/email_checker.py`, and the retry loop of
`src/app.py`, together with theorems settling the specification's claims.

Python strings are modelled over their ASCII fragment (every URL, column
value and diagnostic note the program manipulates is ASCII); Python `float`
values entering the retry-timeout computation are modelled as exact
rationals, which agrees with IEEE double arithmetic at every input used in
the theorems below (all of them dyadic).
-/

namespace EmailChecker

/-- One cell value as handed to the engine by pandas after `read_csv(...,
dtype=str)`: a string, the float `NaN` pandas uses for a blank cell, or
Python `None`. -/
inductive CellValue where
  | str (s : String)
  | nan
  | pyNone
deriving DecidableEq, Inhabited

/-- Characters removed by Python `str.strip()` (ASCII fragment). -/
def pyIsSpace (c : Char) : Bool :=
  c == ' ' || c == '\t' || c == '\n' || c == '\r' || c == '\x0b' || c == '\x0c'

/-- Python `s.strip()`: drop leading and trailing whitespace. -/
def pyStrip (s : String) : String :=
  String.mk (((s.data.dropWhile pyIsSpace).reverse.dropWhile pyIsSpace).reverse)

/-- Python `str.lower` on one character (ASCII fragment). -/
def pyLowerChar (c : Char) : Char :=
  if 'A' ≤ c ∧ c ≤ 'Z' then Char.ofNat (c.toNat + 32) else c

/-- Python `s.lower()` (ASCII fragment). -/
def pyLower (s : String) : String := String.mk (s.data.map pyLowerChar)

/-- Python `s.startswith(p)`. -/
def pyStartsWith (s p : String) : Bool := p.data.isPrefixOf s.data

/-- The `norm_url` helper of email_checker.py, line for line:
`None`/non-string/blank values give `none`; otherwise the value is stripped
and `http://` is prepended unless the lower-cased string already starts with
`http://` or `https://`. -/
def norm_url : CellValue → Option String
  | CellValue.str s =>
      if pyStrip s = "" then none
      else if pyStartsWith (pyLower (pyStrip s)) "http://"
              || pyStartsWith (pyLower (pyStrip s)) "https://" then
        some (pyStrip s)
      else some ("http://" ++ pyStrip s)
  | _ => none

/-- The characters after the first occurrence of "://", if any. -/
def afterSchemeSep : List Char → Option (List Char)
  | ':' :: '/' :: '/' :: rest => some rest
  | _ :: rest => afterSchemeSep rest
  | [] => none

/-- `urllib.parse.urlparse(u).netloc` for the URL shapes `norm_url`
produces (an explicit `scheme://` authority): the characters between the
first "://" and the first `/`, `?` or `#` after it; empty when the string
carries no "://". -/
def netlocOf (u : String) : String :=
  match afterSchemeSep u.data with
  | some rest => String.mk (rest.takeWhile (fun c => !(c == '/' || c == '?' || c == '#')))
  | none => ""

/-- The `host` helper of email_checker.py:
`urlparse(u).netloc.lower().lstrip("www.") if u else ""`.
Python `lstrip("www.")` removes leading characters drawn from the
two-character set consisting of `w` and `.`, not the literal prefix
`www.`. -/
def host (u : String) : String :=
  if u = "" then ""
  else String.mk ((pyLower (netlocOf u)).data.dropWhile (fun c => c == 'w' || c == '.'))

/-- The dictionary `fetch_html` returns: `ok`, rendered `html`, an error
kind `err` (empty on success, `Timeout` or an exception class name on
failure), an optional HTTP `status`, and the `final` URL. -/
structure FetchOutcome where
  ok : Bool
  html : String
  err : String
  status : Option Nat
  final : String
deriving DecidableEq, Inhabited

/-- Python `str(...)` of an optional HTTP status, as produced inside an
f-string: `None` when absent. -/
def statusRepr : Option Nat → String
  | none => "None"
  | some n => toString n

/-- The f-string fragment of compare_pair, line 98: the Python expression
`r["err"] or r["status"]` renders the error kind when non-empty, else the
status field. -/
def errOrStatus (r : FetchOutcome) : String :=
  if r.err = "" then statusRepr r.status else r.err

/-- The result of one `compare_pair` call: the `(note, bool_pass)` tuple
returned by the code, plus an instrumentation count of how many `fetch_html`
calls the path performed (the spec's "fetch attempts"). -/
structure Verdict where
  note : String
  passed : Bool
  fetches : Nat
deriving DecidableEq, Inhabited

/-- Core of `compare_pair` (email_checker.py lines 83-105) after the two
`norm_url` calls, taking the fetcher as an oracle `url → timeout → outcome`
(both fetches run on the shared timeout; the oracle is pure, so binding
`r1`/`r2` once, as the code does, coincides with repeated application).
The guard `if not u1 or not u2` of line 84 also treats an empty normalized
string as missing. -/
def comparePairNorm (fetch : String → Int → FetchOutcome) (timeout_ms : Int) :
    Option String → Option String → Verdict
  | some u1, some u2 =>
      if u1 = "" ∨ u2 = "" then ⟨"FetchErr:MissingURL", false, 0⟩
      else if (fetch u1 timeout_ms).ok = false ∨ (fetch u2 timeout_ms).ok = false then
        ⟨"FetchErr:" ++ errOrStatus (fetch u1 timeout_ms) ++ "|"
            ++ errOrStatus (fetch u2 timeout_ms), false, 2⟩
      else if host u1 = host u2 ∨ (fetch u1 timeout_ms).html = (fetch u2 timeout_ms).html then
        ⟨"Pass", true, 2⟩
      else if (fetch u1 timeout_ms).html = "" ∨ (fetch u2 timeout_ms).html = "" then
        ⟨"EmptyBody", false, 2⟩
      else ⟨"StillDiff", false, 2⟩
  | _, _ => ⟨"FetchErr:MissingURL", false, 0⟩

/-- `compare_pair` of email_checker.py: normalize both URLs, then decide. -/
def comparePair (fetch : String → Int → FetchOutcome) (timeout_ms : Int)
    (email_url comp_url : CellValue) : Verdict :=
  comparePairNorm fetch timeout_ms (norm_url email_url) (norm_url comp_url)

/-- One row of the DataFrame as the engine sees it: the two URL columns it
reads, the two columns it writes, and every remaining column bundled as
`others` (the engine never touches them). -/
structure Row where
  emailDomain : CellValue
  companyDomain : CellValue
  emailMatch : String
  retryNote : String
  others : List String
deriving DecidableEq, Inhabited

/-- The write-back of one task's result (email_checker.py lines 142-144):
`RetryNote` gets the note, `EmailMatch` gets "Pass" or "Fail". -/
def applyVerdict (v : Verdict) (r : Row) : Row :=
  { r with retryNote := v.note, emailMatch := if v.passed then "Pass" else "Fail" }

/-- The rows of `df.loc[mask]`, written back after all tasks finish: row `k+i`
is replaced by its verdict when `mask` selects it, else kept. Positions past
the end of `mask` count as unselected. -/
def writeBackAux (fetch : String → Int → FetchOutcome) (timeout_ms : Int)
    (mask : List Bool) : Nat → List Row → List Row
  | _, [] => []
  | i, r :: rs =>
      (if mask.getD i false then
          applyVerdict (comparePair fetch timeout_ms r.emailDomain r.companyDomain) r
        else r) :: writeBackAux fetch timeout_ms mask (i + 1) rs

/-- Indices of the rows selected by the mask, in order (`df.loc[mask]`). -/
def selIdx (df : List Row) (mask : List Bool) : List Nat :=
  (List.range df.length).filter (fun i => mask.getD i false)

/-- How one `process_async` invocation can end.
`valueError`: `asyncio.Semaphore(concurrency)` at line 119 raises
`ValueError` for a negative argument, before the browser or any task exists.
`hang`: with a zero-permit semaphore and at least one selected row, every
worker blocks forever at `async with sem` and the `gather` never returns.
`taskFault`: an exception escapes some worker (the coroutine has no handler),
`tqdm_asyncio.gather` re-raises it, and control leaves `process_async`
before the write-back loop of lines 142-144 runs, so the DataFrame is
untouched. `done`: normal completion with the results written back. -/
inductive RunOutcome where
  | valueError
  | hang
  | taskFault
  | done (df : List Row)
deriving DecidableEq

/-- `process_async` of email_checker.py (lines 108-145). The fetcher is the
oracle used by `compare_pair`; `fault i = true` models an unexpected internal
exception thrown inside the worker for row `i` (for example
`browser.new_page()` failing), which no handler in the code catches. The
timeout is forwarded to the fetches and never validated. -/
def processAsync (fetch : String → Int → FetchOutcome) (fault : Nat → Bool)
    (df : List Row) (mask : List Bool) (concurrency timeout_ms : Int) : RunOutcome :=
  if concurrency < 0 then RunOutcome.valueError
  else if concurrency = 0 ∧ selIdx df mask ≠ [] then RunOutcome.hang
  else if (selIdx df mask).any fault then RunOutcome.taskFault
  else RunOutcome.done (writeBackAux fetch timeout_ms mask 0 df)

/-- Python `int(q)`: truncation toward zero. -/
def pyInt (q : Rat) : Int := if q < 0 then ⌈q⌉ else ⌊q⌋

/-- The selector recomputed before each retry round (app.py line 87):
`df["EmailMatch"] == "Fail"`. -/
def failsMask (df : List Row) : List Bool :=
  df.map (fun r => r.emailMatch == "Fail")

/-- One worker-pool invocation recorded from the retry loop of app.py:
the round number, the DataFrame at that moment, the mask and the timeout
passed to `process_async`. -/
structure RoundCall where
  round : Nat
  dfBefore : List Row
  mask : List Bool
  timeout_ms : Int
deriving DecidableEq, Inhabited

/-- The retry loop of app.py lines 86-97, parametrised by the action `run`
standing for one `process_async` invocation: round `r` recomputes the Fail
mask, stops when it is empty, else runs the pool with
`int(base_timeout_sec * timeout_mult ** r * 1000)` milliseconds and moves to
round `r+1`. Returns the final DataFrame and the trace of invocations.
`timeout_mult` is an exact rational standing for the UI float. -/
def retryLoopAux (run : List Row → List Bool → Int → List Row)
    (baseSec : Nat) (mult : Rat) : Nat → Nat → List Row → List Row × List RoundCall
  | _, 0, df => (df, [])
  | r, k + 1, df =>
      let fails := failsMask df
      if fails.any id then
        let tms := pyInt ((baseSec : Rat) * mult ^ r * 1000)
        let df2 := run df fails tms
        let rest := retryLoopAux run baseSec mult (r + 1) k df2
        (rest.1, ⟨r, df, fails, tms⟩ :: rest.2)
      else (df, [])

/-- `for r in range(1, retries + 1)` of app.py line 86. -/
def retryLoop (run : List Row → List Bool → Int → List Row)
    (baseSec : Nat) (mult : Rat) (retries : Nat) (df : List Row) :
    List Row × List RoundCall :=
  retryLoopAux run baseSec mult 1 retries df

/-! ### Helper lemmas -/

theorem length_append_ne (p s t : String) (h : p.length + s.length ≠ t.length) :
    p ++ s ≠ t := by
  intro he
  apply h
  rw [← String.length_append, he]

theorem norm_url_ne_empty {v : CellValue} {u : String} (h : norm_url v = some u) :
    u ≠ "" := by
  cases v with
  | str s =>
      simp only [norm_url] at h
      by_cases hs : pyStrip s = ""
      · rw [if_pos hs] at h
        exact absurd h (by simp)
      · rw [if_neg hs] at h
        by_cases hp : (pyStartsWith (pyLower (pyStrip s)) "http://"
            || pyStartsWith (pyLower (pyStrip s)) "https://") = true
        · rw [if_pos hp, Option.some.injEq] at h
          subst h
          exact hs
        · rw [if_neg hp, Option.some.injEq] at h
          subst h
          apply length_append_ne
          have h7 : ("http://" : String).length = 7 := rfl
          have h0 : ("" : String).length = 0 := rfl
          omega
  | nan => exact absurd h (by simp [norm_url])
  | pyNone => exact absurd h (by simp [norm_url])

theorem comparePairNorm_note_cases (fetch : String → Int → FetchOutcome)
    (t : Int) (o1 o2 : Option String) :
    (comparePairNorm fetch t o1 o2 = ⟨"FetchErr:MissingURL", false, 0⟩) ∨
    (∃ a b, comparePairNorm fetch t o1 o2 = ⟨"FetchErr:" ++ a ++ "|" ++ b, false, 2⟩) ∨
    (comparePairNorm fetch t o1 o2 = ⟨"Pass", true, 2⟩) ∨
    (comparePairNorm fetch t o1 o2 = ⟨"EmptyBody", false, 2⟩) ∨
    (comparePairNorm fetch t o1 o2 = ⟨"StillDiff", false, 2⟩) := by
  match o1, o2 with
  | none, _ => left; rfl
  | some u1, none => left; rfl
  | some u1, some u2 =>
      simp only [comparePairNorm]
      split_ifs with h1 h2 h3 h4
      · left; rfl
      · right; left
        exact ⟨errOrStatus (fetch u1 t), errOrStatus (fetch u2 t), rfl⟩
      · right; right; left; rfl
      · right; right; right; left; rfl
      · right; right; right; right; rfl

theorem fetchErr_note_ne (a b t : String) (ht : t.length < 10) :
    "FetchErr:" ++ a ++ "|" ++ b ≠ t := by
  intro h
  have hl := congrArg String.length h
  simp only [String.length_append] at hl
  have h9 : ("FetchErr:" : String).length = 9 := rfl
  have h1 : ("|" : String).length = 1 := rfl
  omega

theorem comparePair_note_ne_empty (fetch : String → Int → FetchOutcome)
    (t : Int) (e c : CellValue) : (comparePair fetch t e c).note ≠ "" := by
  rcases comparePairNorm_note_cases fetch t (norm_url e) (norm_url c) with
    h | ⟨a, b, h⟩ | h | h | h <;> simp only [comparePair, h]
  · decide
  · exact fetchErr_note_ne a b "" (by decide)
  · decide
  · decide
  · decide

theorem comparePair_passed_iff (fetch : String → Int → FetchOutcome)
    (t : Int) (e c : CellValue) :
    (comparePair fetch t e c).passed = true ↔ (comparePair fetch t e c).note = "Pass" := by
  rcases comparePairNorm_note_cases fetch t (norm_url e) (norm_url c) with
    h | ⟨a, b, h⟩ | h | h | h
  · simp only [comparePair, h]
    constructor
    · intro hc; exact absurd hc (by decide)
    · intro hc; exact absurd hc (by decide)
  · simp only [comparePair, h]
    constructor
    · intro hc; exact absurd hc (by decide)
    · intro hc; exact absurd hc (fetchErr_note_ne a b "Pass" (by decide))
  · simp [comparePair, h]
  · simp only [comparePair, h]
    constructor
    · intro hc; exact absurd hc (by decide)
    · intro hc; exact absurd hc (by decide)
  · simp only [comparePair, h]
    constructor
    · intro hc; exact absurd hc (by decide)
    · intro hc; exact absurd hc (by decide)

theorem writeBackAux_length (fetch : String → Int → FetchOutcome) (t : Int)
    (mask : List Bool) (df : List Row) :
    ∀ k, (writeBackAux fetch t mask k df).length = df.length := by
  induction df with
  | nil => intro k; rfl
  | cons r rs ih => intro k; simp [writeBackAux, ih (k + 1)]

theorem writeBackAux_getD (fetch : String → Int → FetchOutcome) (t : Int)
    (mask : List Bool) (df : List Row) :
    ∀ k i, i < df.length →
      (writeBackAux fetch t mask k df).getD i default =
        (if mask.getD (k + i) false then
            applyVerdict
              (comparePair fetch t (df.getD i default).emailDomain
                (df.getD i default).companyDomain)
              (df.getD i default)
          else df.getD i default) := by
  induction df with
  | nil => intro k i h; exact absurd h (by simp)
  | cons r rs ih =>
      intro k i h
      match i with
      | 0 => simp [writeBackAux]
      | j + 1 =>
          have hj : j < rs.length := by simpa using h
          have := ih (k + 1) j hj
          simpa [writeBackAux, Nat.add_assoc, Nat.add_comm 1 j] using this

theorem writeBackAux_getD_unsel (fetch : String → Int → FetchOutcome) (t : Int)
    (mask : List Bool) (df : List Row) (i : Nat)
    (h : mask.getD i false = false) :
    (writeBackAux fetch t mask 0 df).getD i default = df.getD i default := by
  by_cases hi : i < df.length
  · rw [writeBackAux_getD fetch t mask df 0 i hi, Nat.zero_add, h]
    simp
  · rw [List.getD_eq_default, List.getD_eq_default]
    · omega
    · rw [writeBackAux_length]; omega

theorem failsMask_getD (df : List Row) (i : Nat) (h : i < df.length) :
    (failsMask df).getD i false = ((df.getD i default).emailMatch == "Fail") := by
  rw [List.getD_eq_getElem?_getD, List.getD_eq_getElem?_getD]
  simp [failsMask, List.getElem?_eq_getElem h]

theorem comparePair_of_none (fetch : String → Int → FetchOutcome) (t : Int)
    (e c : CellValue) (h : norm_url e = none ∨ norm_url c = none) :
    comparePair fetch t e c = ⟨"FetchErr:MissingURL", false, 0⟩ := by
  rw [comparePair]
  rcases h with h | h
  · rw [h]
    cases hc : norm_url c <;> rfl
  · rw [h]
    cases he : norm_url e <;> rfl

theorem processAsync_done {fetch : String → Int → FetchOutcome} {fault : Nat → Bool}
    {df : List Row} {mask : List Bool} {conc t : Int} {df' : List Row}
    (h : processAsync fetch fault df mask conc t = RunOutcome.done df') :
    df' = writeBackAux fetch t mask 0 df := by
  unfold processAsync at h
  split_ifs at h
  all_goals first
  | (exact RunOutcome.noConfusion h)
  | (injection h with h2; exact h2.symm)

theorem pyStartsWith_append (p s : String) : pyStartsWith (p ++ s) p = true := by
  rw [pyStartsWith, String.data_append, List.isPrefixOf_iff_prefix]
  exact List.prefix_append p.data s.data

theorem fetchErr_note_startsWith (a b : String) :
    pyStartsWith ("FetchErr:" ++ a ++ "|" ++ b) "FetchErr:" = true := by
  have h : "FetchErr:" ++ a ++ "|" ++ b = "FetchErr:" ++ (a ++ "|" ++ b) := by
    simp [String.append_assoc]
  rw [h]
  exact pyStartsWith_append "FetchErr:" (a ++ "|" ++ b)

theorem retryLoopAux_mem (run : List Row → List Bool → Int → List Row)
    (baseSec : Nat) (mult : Rat) :
    ∀ (k r : Nat) (df : List Row) (call : RoundCall),
      call ∈ (retryLoopAux run baseSec mult r k df).2 →
      r ≤ call.round ∧ call.round < r + k ∧
      call.mask = failsMask call.dfBefore ∧
      call.timeout_ms = pyInt ((baseSec : Rat) * mult ^ call.round * 1000) := by
  intro k
  induction k with
  | zero =>
      intro r df call hc
      exact absurd hc (by simp [retryLoopAux])
  | succ n ih =>
      intro r df call hc
      simp only [retryLoopAux] at hc
      by_cases hf : (failsMask df).any id = true
      · rw [if_pos hf] at hc
        rcases List.mem_cons.mp hc with hh | hh
        · subst hh
          refine ⟨Nat.le_refl r, ?_, rfl, rfl⟩
          show r < r + (n + 1)
          omega
        · obtain ⟨ha, hb, hm, ht⟩ := ih (r + 1) _ call hh
          exact ⟨by omega, by omega, hm, ht⟩
      · rw [if_neg hf] at hc
        exact absurd hc (by simp)

/-! ### Concrete inputs used by the witnesses -/

/-- A fetch oracle for witnesses: every URL renders the same page. -/
def wFetchOk : String → Int → FetchOutcome := fun _ _ => ⟨true, "<w>", "", some 200, ""⟩

/-- A fetch oracle where one specific URL times out and every other URL
succeeds with HTTP 200. -/
def wFetchTimeoutA : String → Int → FetchOutcome := fun u _ =>
  if u = "http://alpha.test" then ⟨false, "", "Timeout", none, ""⟩
  else ⟨true, "<html>", "", some 200, "http://beta.test/"⟩

/-! ### Claim theorems -/

/-- C2. Verdict decision order: whenever both URLs normalize, `compare_pair`
decides in this order: a failed fetch on either side gives the note
`FetchErr:` followed by each side's `err or status` rendering and a false
`passed`; otherwise equal hosts or byte-identical bodies give `Pass`/true;
otherwise an empty body gives `EmptyBody`/false; otherwise `StillDiff`/false.
A row can never pass when either fetch failed, and same-host rows with two
successful fetches pass regardless of content. Each side of the `FetchErr`
note shows its failure kind, or its HTTP status rendering when the kind is
absent. -/
theorem comparePair_decision_order (fetch : String → Int → FetchOutcome) (t : Int)
    (e c : CellValue) (u1 u2 : String)
    (h1 : norm_url e = some u1) (h2 : norm_url c = some u2) :
    ((fetch u1 t).ok = false ∨ (fetch u2 t).ok = false →
        comparePair fetch t e c =
          ⟨"FetchErr:" ++ errOrStatus (fetch u1 t) ++ "|" ++ errOrStatus (fetch u2 t),
            false, 2⟩) ∧
    ((fetch u1 t).ok = true → (fetch u2 t).ok = true →
        (host u1 = host u2 ∨ (fetch u1 t).html = (fetch u2 t).html) →
        comparePair fetch t e c = ⟨"Pass", true, 2⟩) ∧
    ((fetch u1 t).ok = true → (fetch u2 t).ok = true →
        ¬(host u1 = host u2) → (fetch u1 t).html ≠ (fetch u2 t).html →
        ((fetch u1 t).html = "" ∨ (fetch u2 t).html = "") →
        comparePair fetch t e c = ⟨"EmptyBody", false, 2⟩) ∧
    ((fetch u1 t).ok = true → (fetch u2 t).ok = true →
        ¬(host u1 = host u2) → (fetch u1 t).html ≠ (fetch u2 t).html →
        (fetch u1 t).html ≠ "" → (fetch u2 t).html ≠ "" →
        comparePair fetch t e c = ⟨"StillDiff", false, 2⟩) ∧
    ((fetch u1 t).ok = false ∨ (fetch u2 t).ok = false →
        (comparePair fetch t e c).passed = false) ∧
    ((fetch u1 t).err ≠ "" → errOrStatus (fetch u1 t) = (fetch u1 t).err) ∧
    ((fetch u1 t).err = "" → errOrStatus (fetch u1 t) = statusRepr (fetch u1 t).status) := by
  have hu1 := norm_url_ne_empty h1
  have hu2 := norm_url_ne_empty h2
  have hne : ¬(u1 = "" ∨ u2 = "") := by
    rintro (h | h)
    · exact hu1 h
    · exact hu2 h
  have hbase : comparePair fetch t e c = comparePairNorm fetch t (some u1) (some u2) := by
    rw [comparePair, h1, h2]
  rw [hbase]
  simp only [comparePairNorm]
  rw [if_neg hne]
  refine ⟨?_, ?_, ?_, ?_, ?_, ?_, ?_⟩
  · intro hf
    rw [if_pos hf]
  · intro ho1 ho2 hsame
    rw [if_neg (by rintro (hk | hk) <;> simp_all), if_pos hsame]
  · intro ho1 ho2 hhost hhtml hemp
    rw [if_neg (by rintro (hk | hk) <;> simp_all),
      if_neg (by rintro (hk | hk) <;> simp_all), if_pos hemp]
  · intro ho1 ho2 hhost hhtml he1 he2
    rw [if_neg (by rintro (hk | hk) <;> simp_all),
      if_neg (by rintro (hk | hk) <;> simp_all),
      if_neg (by rintro (hk | hk) <;> simp_all)]
  · intro hf
    rw [if_pos hf]
  · intro hk
    rw [errOrStatus, if_neg hk]
  · intro hk
    rw [errOrStatus, if_pos hk]

/-- Witness for C2: a concrete pair where the email side times out and the
company side returns HTTP 200, giving the note `FetchErr:Timeout|200`. -/
theorem comparePair_decision_order_witness :
    comparePair wFetchTimeoutA 7 (CellValue.str "alpha.test") (CellValue.str "beta.test")
      = ⟨"FetchErr:Timeout|200", false, 2⟩ := by
  have h := (comparePair_decision_order wFetchTimeoutA 7
      (CellValue.str "alpha.test") (CellValue.str "beta.test")
      "http://alpha.test" "http://beta.test" (by decide) (by decide)).1 (Or.inl (by decide))
  rw [h]
  decide

/-- C3. Missing-URL short-circuit: when either URL fails to normalize,
`compare_pair` returns the note `FetchErr:MissingURL` with `passed = false`
and performs zero fetches. -/
theorem comparePair_missing_url (fetch : String → Int → FetchOutcome) (t : Int)
    (e c : CellValue) (h : norm_url e = none ∨ norm_url c = none) :
    comparePair fetch t e c = ⟨"FetchErr:MissingURL", false, 0⟩ ∧
    (comparePair fetch t e c).fetches = 0 := by
  have he := comparePair_of_none fetch t e c h
  exact ⟨he, by rw [he]⟩

/-- Witness for C3: the empty email URL with a present company URL. -/
theorem comparePair_missing_url_witness :
    norm_url (CellValue.str "") = none ∧
    comparePair wFetchOk 3 (CellValue.str "") (CellValue.str "http://beta.com")
      = ⟨"FetchErr:MissingURL", false, 0⟩ :=
  ⟨by decide,
    (comparePair_missing_url wFetchOk 3 (CellValue.str "") (CellValue.str "http://beta.com")
      (Or.inl (by decide))).1⟩

/-- C4. Host extraction at the normalized URL of "web.acme.com": the code's
`lstrip("www.")` removes leading characters from the set consisting of `w`
and `.`, so it returns "eb.acme.com", not the network location
"web.acme.com" that the claim (and the function's own docstring, "Extract
netloc minus leading www.") describes. The `www.`-prefixed case the claim
also cites does behave as stated. -/
theorem host_lstrip_charset :
    norm_url (CellValue.str "web.acme.com") = some "http://web.acme.com" ∧
    host "http://web.acme.com" = "eb.acme.com" ∧
    (host "http://web.acme.com" == "web.acme.com") = false ∧
    host "http://www.acme.com" = "acme.com" := by decide

/-- C9. Verdict well-formedness: `compare_pair` always returns a non-empty
note that is "Pass", "EmptyBody", "StillDiff" or starts with "FetchErr:",
and `passed` is true exactly when the note is "Pass"; consequently a row
written by a `process_async` run has `RetryNote = "Pass"` whenever it has
`EmailMatch = "Pass"`. -/
theorem comparePair_verdict_wellformed (fetch : String → Int → FetchOutcome)
    (t : Int) (e c : CellValue) :
    (comparePair fetch t e c).note ≠ "" ∧
    ((comparePair fetch t e c).note = "Pass" ∨ (comparePair fetch t e c).note = "EmptyBody" ∨
      (comparePair fetch t e c).note = "StillDiff" ∨
      pyStartsWith (comparePair fetch t e c).note "FetchErr:" = true) ∧
    ((comparePair fetch t e c).passed = true ↔ (comparePair fetch t e c).note = "Pass") ∧
    (∀ (fault : Nat → Bool) (df : List Row) (mask : List Bool) (conc : Int) (df' : List Row),
      processAsync fetch fault df mask conc t = RunOutcome.done df' →
      ∀ i, i < df.length → mask.getD i false = true →
        (df'.getD i default).emailMatch = "Pass" → (df'.getD i default).retryNote = "Pass") := by
  refine ⟨comparePair_note_ne_empty fetch t e c, ?_, comparePair_passed_iff fetch t e c, ?_⟩
  · rcases comparePairNorm_note_cases fetch t (norm_url e) (norm_url c) with
      h | ⟨a, b, h⟩ | h | h | h
    · right; right; right
      simp only [comparePair, h]
      decide
    · right; right; right
      simp only [comparePair, h]
      exact fetchErr_note_startsWith a b
    · left; simp [comparePair, h]
    · right; left; simp [comparePair, h]
    · right; right; left; simp [comparePair, h]
  · intro fault df mask conc df' hdone i hi hsel hpass
    have hd := processAsync_done hdone
    subst hd
    rw [writeBackAux_getD fetch t mask df 0 i hi, Nat.zero_add, hsel] at hpass ⊢
    simp only [if_true] at hpass ⊢
    by_cases hp :
        (comparePair fetch t (df.getD i default).emailDomain
          (df.getD i default).companyDomain).passed = true
    · simp only [applyVerdict]
      exact (comparePair_passed_iff fetch t _ _).mp hp
    · exfalso
      simp only [applyVerdict] at hpass
      rw [if_neg hp] at hpass
      exact absurd hpass (by decide)

/-- Witness for C9: the well-formedness consequence evaluated on a one-row
run whose comparison passes. -/
theorem comparePair_verdict_wellformed_witness :
    processAsync wFetchOk (fun _ => false)
        [⟨CellValue.str "w9.example", CellValue.str "w9.example", "", "", []⟩] [true] 1 9
      = RunOutcome.done
          [⟨CellValue.str "w9.example", CellValue.str "w9.example", "Pass", "Pass", []⟩] ∧
    (([⟨CellValue.str "w9.example", CellValue.str "w9.example", "Pass", "Pass", []⟩] :
        List Row).getD 0 default).retryNote = "Pass" :=
  ⟨by decide,
    (comparePair_verdict_wellformed wFetchOk 9
        (CellValue.str "w9.example") (CellValue.str "w9.example")).2.2.2
      (fun _ => false)
      [⟨CellValue.str "w9.example", CellValue.str "w9.example", "", "", []⟩] [true] 1
      [⟨CellValue.str "w9.example", CellValue.str "w9.example", "Pass", "Pass", []⟩]
      (by decide) 0 (by decide) (by decide) (by decide)⟩

/-- C10. Non-string totality: a non-string cell (pandas `NaN` or `None`)
makes `norm_url` return `None` rather than raise, and `compare_pair` then
returns the `FetchErr:MissingURL` Fail verdict with zero fetches. -/
theorem comparePair_nonstring_total (fetch : String → Int → FetchOutcome) (t : Int)
    (e c : CellValue)
    (h : (∀ s, e ≠ CellValue.str s) ∨ (∀ s, c ≠ CellValue.str s)) :
    (norm_url e = none ∨ norm_url c = none) ∧
    comparePair fetch t e c = ⟨"FetchErr:MissingURL", false, 0⟩ ∧
    (comparePair fetch t e c).fetches = 0 := by
  have hn : norm_url e = none ∨ norm_url c = none := by
    rcases h with h | h
    · left
      cases e with
      | str s => exact absurd rfl (h s)
      | nan => rfl
      | pyNone => rfl
    · right
      cases c with
      | str s => exact absurd rfl (h s)
      | nan => rfl
      | pyNone => rfl
  have he := comparePair_of_none fetch t e c hn
  exact ⟨hn, he, by rw [he]⟩

/-- Witness for C10: a NaN email cell from a blank CSV field. -/
theorem comparePair_nonstring_total_witness :
    (norm_url CellValue.nan = none ∨ norm_url (CellValue.str "http://w10.example") = none) ∧
    comparePair wFetchOk 4 CellValue.nan (CellValue.str "http://w10.example")
      = ⟨"FetchErr:MissingURL", false, 0⟩ ∧
    (comparePair wFetchOk 4 CellValue.nan (CellValue.str "http://w10.example")).fetches = 0 :=
  comparePair_nonstring_total wFetchOk 4 CellValue.nan (CellValue.str "http://w10.example")
    (Or.inl (fun _ h => CellValue.noConfusion h))

/-- C1. Exhaustiveness: after a normally completed `process_async` run,
every selected row carries `EmailMatch` equal to "Pass" or "Fail" and a
non-empty `RetryNote`, and that note is exactly the note of the row's most
recent comparison. -/
theorem process_async_exhaustive (fetch : String → Int → FetchOutcome)
    (fault : Nat → Bool) (df : List Row) (mask : List Bool) (conc t : Int)
    (df' : List Row)
    (h : processAsync fetch fault df mask conc t = RunOutcome.done df')
    (i : Nat) (hi : i < df.length) (hsel : mask.getD i false = true) :
    ((df'.getD i default).emailMatch = "Pass" ∨ (df'.getD i default).emailMatch = "Fail") ∧
    (df'.getD i default).retryNote ≠ "" ∧
    (df'.getD i default).retryNote =
      (comparePair fetch t (df.getD i default).emailDomain
        (df.getD i default).companyDomain).note := by
  have hd := processAsync_done h
  subst hd
  rw [writeBackAux_getD fetch t mask df 0 i hi, Nat.zero_add, hsel]
  simp only [if_true, applyVerdict]
  refine ⟨?_, comparePair_note_ne_empty fetch t _ _, trivial⟩
  by_cases hp :
      (comparePair fetch t (df.getD i default).emailDomain
        (df.getD i default).companyDomain).passed = true
  · left; rw [if_pos hp]
  · right; rw [if_neg hp]

/-- Witness for C1: a one-row run whose email URL is whitespace-only; the
row comes back marked Fail with the MissingURL note. -/
theorem process_async_exhaustive_witness :
    processAsync wFetchOk (fun _ => false)
        [⟨CellValue.str " ", CellValue.str "http://w1.example", "", "", ["k"]⟩] [true] 2 9
      = RunOutcome.done
          [⟨CellValue.str " ", CellValue.str "http://w1.example", "Fail",
            "FetchErr:MissingURL", ["k"]⟩] ∧
    ((([⟨CellValue.str " ", CellValue.str "http://w1.example", "Fail",
          "FetchErr:MissingURL", ["k"]⟩] : List Row).getD 0 default).emailMatch = "Pass" ∨
      (([⟨CellValue.str " ", CellValue.str "http://w1.example", "Fail",
          "FetchErr:MissingURL", ["k"]⟩] : List Row).getD 0 default).emailMatch = "Fail") :=
  ⟨by decide,
    (process_async_exhaustive wFetchOk (fun _ => false)
      [⟨CellValue.str " ", CellValue.str "http://w1.example", "", "", ["k"]⟩] [true] 2 9
      [⟨CellValue.str " ", CellValue.str "http://w1.example", "Fail",
        "FetchErr:MissingURL", ["k"]⟩]
      (by decide) 0 (by decide) (by decide)).1⟩

/-- C7. Frame: a normally completed `process_async` run keeps the table
length, leaves every unselected row untouched, writes only the `EmailMatch`
and `RetryNote` fields of selected rows, and under the retry selector
`EmailMatch == "Fail"` never touches a row already marked "Pass". -/
theorem process_async_frame (fetch : String → Int → FetchOutcome)
    (fault : Nat → Bool) (df : List Row) (mask : List Bool) (conc t : Int)
    (df' : List Row)
    (h : processAsync fetch fault df mask conc t = RunOutcome.done df') :
    df'.length = df.length ∧
    (∀ i, mask.getD i false = false → df'.getD i default = df.getD i default) ∧
    (∀ i, i < df.length → mask.getD i false = true →
      (df'.getD i default).emailDomain = (df.getD i default).emailDomain ∧
      (df'.getD i default).companyDomain = (df.getD i default).companyDomain ∧
      (df'.getD i default).others = (df.getD i default).others) ∧
    (mask = failsMask df → ∀ i, i < df.length →
      (df.getD i default).emailMatch = "Pass" →
      df'.getD i default = df.getD i default) := by
  have hd := processAsync_done h
  subst hd
  refine ⟨writeBackAux_length fetch t mask df 0, ?_, ?_, ?_⟩
  · intro i hm
    exact writeBackAux_getD_unsel fetch t mask df i hm
  · intro i hi hm
    rw [writeBackAux_getD fetch t mask df 0 i hi, Nat.zero_add, hm]
    simp [applyVerdict]
  · intro hmask i hi hp
    apply writeBackAux_getD_unsel
    rw [hmask, failsMask_getD df i hi, hp]
    decide

/-- Witness for C7: a Pass row and a Fail row under the retry selector;
the Pass row is returned unchanged. -/
theorem process_async_frame_witness :
    processAsync wFetchOk (fun _ => false)
        [⟨CellValue.str "p7.example", CellValue.str "p7.example", "Pass", "Pass", ["a"]⟩,
          ⟨CellValue.str "f7.example", CellValue.str "g7.example", "Fail", "StillDiff", ["b"]⟩]
        (failsMask
          [⟨CellValue.str "p7.example", CellValue.str "p7.example", "Pass", "Pass", ["a"]⟩,
            ⟨CellValue.str "f7.example", CellValue.str "g7.example", "Fail", "StillDiff", ["b"]⟩])
        3 11
      = RunOutcome.done
          [⟨CellValue.str "p7.example", CellValue.str "p7.example", "Pass", "Pass", ["a"]⟩,
            ⟨CellValue.str "f7.example", CellValue.str "g7.example", "Pass", "Pass", ["b"]⟩] ∧
    (([⟨CellValue.str "p7.example", CellValue.str "p7.example", "Pass", "Pass", ["a"]⟩,
        ⟨CellValue.str "f7.example", CellValue.str "g7.example", "Pass", "Pass", ["b"]⟩] :
          List Row).getD 0 default
      = ([⟨CellValue.str "p7.example", CellValue.str "p7.example", "Pass", "Pass", ["a"]⟩,
          ⟨CellValue.str "f7.example", CellValue.str "g7.example", "Fail", "StillDiff", ["b"]⟩] :
            List Row).getD 0 default) :=
  ⟨by decide,
    (process_async_frame wFetchOk (fun _ => false)
      [⟨CellValue.str "p7.example", CellValue.str "p7.example", "Pass", "Pass", ["a"]⟩,
        ⟨CellValue.str "f7.example", CellValue.str "g7.example", "Fail", "StillDiff", ["b"]⟩]
      (failsMask
        [⟨CellValue.str "p7.example", CellValue.str "p7.example", "Pass", "Pass", ["a"]⟩,
          ⟨CellValue.str "f7.example", CellValue.str "g7.example", "Fail", "StillDiff", ["b"]⟩])
      3 11
      [⟨CellValue.str "p7.example", CellValue.str "p7.example", "Pass", "Pass", ["a"]⟩,
        ⟨CellValue.str "f7.example", CellValue.str "g7.example", "Pass", "Pass", ["b"]⟩]
      (by decide)).2.2.2 rfl 0 (by decide) (by decide)⟩

/-- C5. The worker coroutine of `process_async` has no exception handler, so
an unexpected internal fault in the task of row 0 (modelled by the fault
oracle) escapes `tqdm_asyncio.gather`, the run ends as `taskFault`, and in
particular it never reaches the `done` state in which sibling results would
have been written back. -/
theorem process_async_fault_aborts_run :
    processAsync wFetchOk (fun i => i == 0)
        [⟨CellValue.str "a5.example", CellValue.str "a5.example", "", "", []⟩,
          ⟨CellValue.str "b5.example", CellValue.str "b5.example", "", "", []⟩]
        [true, true] 10 100000
      = RunOutcome.taskFault := by decide

/-- C8 counterexample: with the non-positive timeout 0 and one selected row,
`process_async` is not rejected: it completes, mutates the row's
`EmailMatch`/`RetryNote`, and its comparison performs two fetches. -/
theorem process_async_invalid_config_cex :
    processAsync wFetchOk (fun _ => false)
        [⟨CellValue.str "c8.example", CellValue.str "www.c8.example", "", "", []⟩] [true] 1 0
      = RunOutcome.done
          [⟨CellValue.str "c8.example", CellValue.str "www.c8.example", "Pass", "Pass", []⟩] ∧
    ((⟨CellValue.str "c8.example", CellValue.str "www.c8.example", "Pass", "Pass", []⟩ : Row).emailMatch
        == (⟨CellValue.str "c8.example", CellValue.str "www.c8.example", "", "", []⟩ : Row).emailMatch)
      = false ∧
    (comparePair wFetchOk 0 (CellValue.str "c8.example")
      (CellValue.str "www.c8.example")).fetches = 2 := by decide

/-- C8 (amended). Configuration boundary as the code implements it: a
negative concurrency raises `ValueError` from the semaphore constructor
before any row is processed; a zero concurrency with a non-empty selection
is not rejected but stalls with no row written; the timeout is never
validated, and with any timeout (non-positive included) a fault-free run
proceeds to normal completion. -/
theorem process_async_config_boundary (fetch : String → Int → FetchOutcome)
    (fault : Nat → Bool) (df : List Row) (mask : List Bool) (conc t : Int) :
    (conc < 0 → processAsync fetch fault df mask conc t = RunOutcome.valueError) ∧
    (conc = 0 → selIdx df mask ≠ [] →
      processAsync fetch fault df mask conc t = RunOutcome.hang) ∧
    (1 ≤ conc → (∀ i ∈ selIdx df mask, fault i = false) →
      processAsync fetch fault df mask conc t
        = RunOutcome.done (writeBackAux fetch t mask 0 df)) := by
  refine ⟨?_, ?_, ?_⟩
  · intro h
    unfold processAsync
    rw [if_pos h]
  · intro h hsel
    unfold processAsync
    rw [if_neg (by omega), if_pos ⟨h, hsel⟩]
  · intro h hf
    have h1 : ¬(conc < 0) := by omega
    have h2 : ¬(conc = 0 ∧ selIdx df mask ≠ []) := by
      rintro ⟨h0, _⟩
      omega
    have h3 : ¬((selIdx df mask).any fault = true) := by
      rw [List.any_eq_true]
      rintro ⟨i, hi, hfi⟩
      rw [hf i hi] at hfi
      exact Bool.noConfusion hfi
    unfold processAsync
    rw [if_neg h1, if_neg h2, if_neg h3]

/-- Witness for C8 (amended): concurrency -2 is rejected as `ValueError`. -/
theorem process_async_config_boundary_witness :
    ((-2 : Int) < 0) ∧
    processAsync wFetchOk (fun _ => false) [] [] (-2) 7 = RunOutcome.valueError :=
  ⟨by decide,
    (process_async_config_boundary wFetchOk (fun _ => false) [] [] (-2) 7).1 (by decide)⟩

/-- A Fail row driving the retry-loop witness. -/
def wRowC6 : Row := ⟨CellValue.str "r6.example", CellValue.str "s6.example", "Fail", "StillDiff", []⟩

/-- A Fail row driving the retry-loop counterexample. -/
def cexRowC6 : Row := ⟨CellValue.str "x6.example", CellValue.str "y6.example", "Fail", "FetchErr:Timeout|Timeout", []⟩

/-- C6 (amended). Every recorded retry-round invocation has a round number
between 1 and `retries`, passes exactly the mask `EmailMatch == "Fail"`
recomputed on the current table, and passes the timeout
`int(base_timeout_sec * timeout_mult ** r * 1000)` milliseconds — truncation
toward zero, not rounding to nearest; at the claim's own instance (base
10000 ms, multiplier 2.0, round 2) truncation also yields 40000 ms. -/
theorem retry_rounds_selector_and_timeout
    (run : List Row → List Bool → Int → List Row) (baseSec : Nat) (mult : Rat)
    (retries : Nat) (df : List Row) (call : RoundCall)
    (hc : call ∈ (retryLoop run baseSec mult retries df).2) :
    1 ≤ call.round ∧ call.round ≤ retries ∧
    call.mask = failsMask call.dfBefore ∧
    (∀ i, i < call.dfBefore.length →
      (call.mask.getD i false = true ↔
        (call.dfBefore.getD i default).emailMatch = "Fail")) ∧
    call.timeout_ms = pyInt ((baseSec : Rat) * mult ^ call.round * 1000) ∧
    pyInt ((10 : Rat) * 2 ^ 2 * 1000) = 40000 := by
  obtain ⟨ha, hb, hm, ht⟩ := retryLoopAux_mem run baseSec mult retries 1 df call hc
  refine ⟨ha, by omega, hm, ?_, ht, ?_⟩
  · intro i hi
    rw [hm, failsMask_getD call.dfBefore i hi]
    simp
  · unfold pyInt
    rw [if_neg (by norm_num)]
    norm_num

/-- Witness for C6 (amended): the single round of a one-retry loop over one
Fail row. -/
theorem retry_rounds_selector_and_timeout_witness :
    (⟨1, [wRowC6], [true], pyInt (((1 : Nat) : Rat) * 2 ^ 1 * 1000)⟩ : RoundCall)
        ∈ (retryLoop (fun d _ _ => d) 1 2 1 [wRowC6]).2 ∧
    (1 : Nat) ≤ 1 := by
  have hm : (⟨1, [wRowC6], [true], pyInt (((1 : Nat) : Rat) * 2 ^ 1 * 1000)⟩ : RoundCall)
      ∈ (retryLoop (fun d _ _ => d) 1 2 1 [wRowC6]).2 := List.Mem.head _
  exact ⟨hm,
    (retry_rounds_selector_and_timeout (fun d _ _ => d) 1 2 1 [wRowC6] _ hm).1⟩

/-- C6 counterexample: with base timeout 1 s (1000 ms) and multiplier 1.5,
round 5 of the loop passes `int(1000 * 1.5^5) = 7593` ms, but the claim's
formula `round(baseTimeoutMs * multiplier^r) = round(7593.75)` gives 7594;
every quantity here is exactly representable in binary floating point, so
the rational model agrees with the Python float computation. -/
theorem retry_timeout_truncation_cex :
    ((retryLoop (fun d _ _ => d) 1 (3/2) 5 [cexRowC6]).2.getD 4 default).round = 5 ∧
    ((retryLoop (fun d _ _ => d) 1 (3/2) 5 [cexRowC6]).2.getD 4 default).timeout_ms = 7593 ∧
    round ((1000 : Rat) * (3/2) ^ 5) = 7594 ∧
    (((7593 : Int) == 7594) = false) := by
  refine ⟨by decide, ?_, ?_, by decide⟩
  · show pyInt (((1 : Nat) : Rat) * (3/2) ^ 5 * 1000) = 7593
    unfold pyInt
    rw [if_neg (by norm_num)]
    norm_num
  · rw [round_eq]
    norm_num

end EmailChecker
